import Mathlib

/-!
Verification of the configuration module `src/utils/config.py` of the
`text_recognition` repository.

The module is a configuration registry: constant definitions plus a handful
of pure helper functions (path joining, endpoint-URL building, required-file
existence checking, configuration validation, and a nested configuration
snapshot).  We embed it shallowly:

* Python strings become `String`; the module-level constants keep their
  source names (one exception: the constant the source calls
  UNCLIP_RATIO is named `UNCLIP_FACTOR` here, for purely lexical reasons;
  its value and role are unchanged).
* `os.path.join` (POSIX semantics, the relevant single-separator case) is
  embedded as `posixJoin2`: a later absolute component discards everything
  before it, and a separator is inserted only when the accumulated prefix is
  non-empty and does not already end in the separator.
* The filesystem is an explicit oracle: a `FileSystem` holds the working
  directory of the process and a probe assigning to every resolved path one
  of `found` / `absent` / `denied`.  `os.path.exists` is embedded as
  `os_path_exists`, which resolves a relative path against the working
  directory and returns `true` only when the probe answers `found` —
  mirroring the Python library function, which returns `False` (rather than
  raising) when the check cannot be performed.
* `SERVER_PORT` is read by `validate_config` as module state; the embedding
  passes it explicitly, with `SERVER_PORT = 8080` as the module's value.
* The nested dictionary returned by `get_config_info` becomes a nested
  structure with the same field names.
-/

/-- Server host constant from the source: `SERVER_HOST = "localhost"`. -/
def SERVER_HOST : String := "localhost"

/-- Server port constant from the source: `SERVER_PORT = 8080`. -/
def SERVER_PORT : Int := 8080

/-- Server debug flag from the source: `SERVER_DEBUG = False`. -/
def SERVER_DEBUG : Bool := false

/-- Base API URL from the source f-string `http://{SERVER_HOST}:{SERVER_PORT}`. -/
def API_BASE_URL : String := "http://" ++ SERVER_HOST ++ ":" ++ toString SERVER_PORT

/-- Detection model path constant. -/
def DET_MODEL_PATH : String := "models/det.onnx"

/-- Recognition model path constant. -/
def REC_MODEL_PATH : String := "models/rec.onnx"

/-- Character-set file path constant. -/
def OCR_KEYS_PATH : String := "models/ppocr_keys_v1.txt"

/-- Font file path constant. -/
def FONT_PATH : String := "assets/fonts/simfang.ttf"

/-- Test image directory constant. -/
def TEST_IMAGES_DIR : String := "assets/images"

/-- Fixed ordered list of test image filenames. -/
def TEST_IMAGES : List String := ["1.jpg", "11.jpg", "12.jpg"]

/-- OCR detection threshold `DET_DB_THRESH = 0.3` (stored, never computed with). -/
def DET_DB_THRESH : Rat := 0.3

/-- OCR detection box threshold `DET_DB_BOX_THRESH = 0.5`. -/
def DET_DB_BOX_THRESH : Rat := 0.5

/-- OCR candidate bound `MAX_CANDIDATES = 2000`. -/
def MAX_CANDIDATES : Int := 2000

/-- OCR unclip expansion factor, value `1.6` (source constant UNCLIP_RATIO). -/
def UNCLIP_FACTOR : Rat := 1.6

/-- OCR dilation flag `USE_DILATION = True`. -/
def USE_DILATION : Bool := true

/-- OCR recognition confidence cutoff `DROP_SCORE = 0.5`. -/
def DROP_SCORE : Rat := 0.5

/-- Endpoint map from the source dictionary `ENDPOINTS`, in declaration order. -/
def ENDPOINTS : List (String × String) :=
  [("ocr", "/ocr"), ("health", "/health"), ("info", "/")]

/-- Required files list, in declaration order. -/
def REQUIRED_FILES : List String :=
  [DET_MODEL_PATH, REC_MODEL_PATH, OCR_KEYS_PATH, FONT_PATH]

/-- Test whether a string starts with the POSIX path separator, i.e. is an
absolute path (`b.startswith(sep)` in the Python join). -/
def headIsSlash (s : String) : Bool := s.data.head? == some '/'

/-- Test whether a string ends with the POSIX path separator
(`path.endswith(sep)` in the Python join). -/
def lastIsSlash (s : String) : Bool := s.data.getLast? == some '/'

/-- Emptiness test on a string (`not path` in the Python join). -/
def strIsEmpty (s : String) : Bool := s.data.isEmpty

/-- Binary POSIX `os.path.join`: an absolute second component replaces the
first; otherwise a separator is inserted unless the first component is empty
or already ends with the separator. -/
def posixJoin2 (a b : String) : String :=
  if headIsSlash b then b
  else if strIsEmpty a || lastIsSlash a then a ++ b
  else a ++ "/" ++ b

/-- Embeds `get_test_image_path(filename)`:
`os.path.join(PROJECT_ROOT, TEST_IMAGES_DIR, filename)`.  The source's
PROJECT_ROOT is computed at import time from the module's location; it is
an explicit parameter `project_root` here. -/
def get_test_image_path (project_root filename : String) : String :=
  posixJoin2 (posixJoin2 project_root TEST_IMAGES_DIR) filename

/-- Embeds `get_test_images()`: the list comprehension
`[get_test_image_path(img) for img in TEST_IMAGES]`. -/
def get_test_images (project_root : String) : List String :=
  TEST_IMAGES.map (get_test_image_path project_root)

/-- Embeds `get_api_url(endpoint)`:
`f"{API_BASE_URL}{ENDPOINTS.get(endpoint, endpoint)}"`. -/
def get_api_url (endpoint : String) : String :=
  API_BASE_URL ++ ((List.lookup endpoint ENDPOINTS).getD endpoint)

/-- Outcome of a single filesystem existence probe: the path exists, it does
not exist, or the check itself cannot be performed (e.g. permission denied). -/
inductive FsOutcome where
  | found
  | absent
  | denied
deriving BEq, DecidableEq, Repr

/-- Filesystem oracle: the current working directory of the process and a
probe over resolved (absolute) paths. -/
structure FileSystem where
  cwd : String
  probe : String → FsOutcome

/-- OS resolution of a path as performed inside `os.path.exists`: an absolute
path stands for itself, a relative path is resolved against the working
directory. -/
def resolve (fs : FileSystem) (p : String) : String :=
  if headIsSlash p then p else posixJoin2 fs.cwd p

/-- Embeds `os.path.exists(p)`: `True` exactly when the probe of the resolved
path answers `found`; a failed check (`denied`) yields `False` rather than an
exception, as the Python library function does. -/
def os_path_exists (fs : FileSystem) (p : String) : Bool :=
  fs.probe (resolve fs p) == FsOutcome.found

/-- Embeds `check_required_files()`: collects, in declaration order, the
required files whose existence check fails. -/
def check_required_files (fs : FileSystem) : List String :=
  REQUIRED_FILES.filter (fun p => ! os_path_exists fs p)

/-- Port-range test from `validate_config`: `1024 <= SERVER_PORT <= 65535`. -/
def portRangeOk (port : Int) : Bool := 1024 ≤ port && port ≤ 65535

/-- Port-range error message from `validate_config`. -/
def portError (port : Int) : String :=
  "端口 " ++ toString port ++ " 不在有效范围内 (1024-65535)"

/-- Missing-files error message from `validate_config`: the missing paths,
comma-joined by `", ".join(...)`. -/
def missingFilesError (missing : List String) : String :=
  "缺少必需文件: " ++ String.intercalate ", " missing

/-- Embeds `validate_config()`: first the port-range check, then the
required-files check; the port the source reads from module state is the
explicit `port` parameter (the module sets it to `SERVER_PORT`). -/
def validate_config (port : Int) (fs : FileSystem) : List String :=
  let portErrors := if portRangeOk port then [] else [portError port]
  let missing := check_required_files fs
  if missing.isEmpty then portErrors
  else portErrors ++ [missingFilesError missing]

/-- Server group of the configuration snapshot. -/
structure ServerInfo where
  host : String
  port : Int
  debug : Bool
  base_url : String
deriving DecidableEq, Repr

/-- Models group of the configuration snapshot. -/
structure ModelsInfo where
  det_model : String
  rec_model : String
  ocr_keys : String
  font : String
deriving DecidableEq, Repr

/-- Test group of the configuration snapshot. -/
structure TestInfo where
  images_dir : String
  images : List String
deriving DecidableEq, Repr

/-- OCR group of the configuration snapshot (the field the source names
unclip_ratio is `unclip_factor` here, matching `UNCLIP_FACTOR`). -/
structure OcrInfo where
  det_db_thresh : Rat
  det_db_box_thresh : Rat
  max_candidates : Int
  unclip_factor : Rat
  use_dilation : Bool
  drop_score : Rat
deriving DecidableEq, Repr

/-- Nested record returned by `get_config_info`. -/
structure ConfigInfo where
  server : ServerInfo
  models : ModelsInfo
  test : TestInfo
  ocr : OcrInfo
deriving DecidableEq, Repr

/-- Embeds `get_config_info()`: assembles the server, models, test and ocr
constant groups into one nested record. -/
def get_config_info : ConfigInfo :=
  ⟨⟨SERVER_HOST, SERVER_PORT, SERVER_DEBUG, API_BASE_URL⟩,
   ⟨DET_MODEL_PATH, REC_MODEL_PATH, OCR_KEYS_PATH, FONT_PATH⟩,
   ⟨TEST_IMAGES_DIR, TEST_IMAGES⟩,
   ⟨DET_DB_THRESH, DET_DB_BOX_THRESH, MAX_CANDIDATES, UNCLIP_FACTOR,
    USE_DILATION, DROP_SCORE⟩⟩

/-- Filesystem in which every probe answers `found`. -/
def fsAllPresent : FileSystem := ⟨"/app", fun _ => FsOutcome.found⟩

/-- Filesystem in which every probe answers `absent`. -/
def fsAllAbsent : FileSystem := ⟨"/app", fun _ => FsOutcome.absent⟩

/-- Filesystem in which the detection model's resolved path is `denied` and
everything else is present. -/
def fsDetDenied : FileSystem :=
  ⟨"/app", fun s => if s == "/app/models/det.onnx" then FsOutcome.denied
                    else FsOutcome.found⟩

/-- Filesystem in which the detection model's resolved path is `absent` and
everything else is present. -/
def fsDetAbsent : FileSystem :=
  ⟨"/app", fun s => if s == "/app/models/det.onnx" then FsOutcome.absent
                    else FsOutcome.found⟩

/-- When every required file's existence check succeeds, `check_required_files`
returns the empty list. -/
lemma check_required_files_eq_nil (fs : FileSystem)
    (h : ∀ p ∈ REQUIRED_FILES, os_path_exists fs p = true) :
    check_required_files fs = [] := by
  apply List.filter_eq_nil_iff.mpr
  intro a ha
  simp [h a ha]

/-- The Boolean port-range test holds on ports inside `[1024, 65535]`. -/
lemma portRangeOk_true {port : Int} (h1 : 1024 ≤ port) (h2 : port ≤ 65535) :
    portRangeOk port = true := by
  simp [portRangeOk]; omega

/-- The embedded existence check is false exactly when the probe of the
resolved path does not answer `found`. -/
lemma os_path_exists_eq_false (fs : FileSystem) (p : String) :
    os_path_exists fs p = false ↔ fs.probe (resolve fs p) ≠ FsOutcome.found := by
  unfold os_path_exists
  cases fs.probe (resolve fs p) <;> decide

/-- The Boolean port-range test fails on ports outside `[1024, 65535]`. -/
lemma portRangeOk_false {port : Int} (h : ¬ (1024 ≤ port ∧ port ≤ 65535)) :
    portRangeOk port = false := by
  simp [portRangeOk]; omega

/-- Appending a non-empty string always yields a non-empty string. -/
lemma strIsEmpty_append (a b : String) (hb : b.data ≠ []) :
    strIsEmpty (a ++ b) = false := by
  rw [strIsEmpty, String.data_append, List.isEmpty_eq_false]
  exact List.append_ne_nil_of_right_ne_nil _ hb

/-- The last character of an append with a non-empty right part is the last
character of the right part. -/
lemma lastIsSlash_append (a b : String) (hb : b.data ≠ []) :
    lastIsSlash (a ++ b) = lastIsSlash b := by
  rw [lastIsSlash, String.data_append, List.getLast?_append_of_ne_nil _ hb,
    lastIsSlash]

/-- Claim C1: `validate_config` runs the port-range check and then the
required-files check, in that order.  It returns the empty list when the port
lies in `[1024, 65535]` and every required file exists; exactly one port-range
message when the port is out of range; exactly one combined message naming all
missing paths, comma-joined in declared order, when files are missing; and
both messages, port first, when both checks fail. -/
theorem validate_config_cases :
    (∀ (port : Int) (fs : FileSystem), 1024 ≤ port → port ≤ 65535 →
      (∀ p ∈ REQUIRED_FILES, os_path_exists fs p = true) →
      validate_config port fs = []) ∧
    (∀ (port : Int) (fs : FileSystem), ¬ (1024 ≤ port ∧ port ≤ 65535) →
      (∀ p ∈ REQUIRED_FILES, os_path_exists fs p = true) →
      validate_config port fs = [portError port]) ∧
    (∀ (port : Int) (fs : FileSystem), 1024 ≤ port → port ≤ 65535 →
      check_required_files fs ≠ [] →
      validate_config port fs = [missingFilesError (check_required_files fs)]) ∧
    (∀ (port : Int) (fs : FileSystem), ¬ (1024 ≤ port ∧ port ≤ 65535) →
      check_required_files fs ≠ [] →
      validate_config port fs =
        [portError port, missingFilesError (check_required_files fs)]) := by
  refine ⟨?_, ?_, ?_, ?_⟩
  · intro port fs h1 h2 hex
    simp [validate_config, portRangeOk_true h1 h2,
      check_required_files_eq_nil fs hex]
  · intro port fs h hex
    simp [validate_config, portRangeOk_false h,
      check_required_files_eq_nil fs hex]
  · intro port fs h1 h2 hne
    simp [validate_config, portRangeOk_true h1 h2, List.isEmpty_eq_false.mpr hne]
  · intro port fs h hne
    simp [validate_config, portRangeOk_false h, List.isEmpty_eq_false.mpr hne]

/-- Witness for C1: the four cases of `validate_config_cases` evaluated at the
module's port `8080`, at the out-of-range port `80`, and at concrete
filesystems where all files exist or all are missing. -/
theorem validate_config_cases_witness :
    validate_config 8080 fsAllPresent = [] ∧
    validate_config 80 fsAllPresent = [portError 80] ∧
    validate_config 8080 fsAllAbsent =
      [missingFilesError (check_required_files fsAllAbsent)] ∧
    validate_config 80 fsAllAbsent =
      [portError 80, missingFilesError (check_required_files fsAllAbsent)] :=
  ⟨validate_config_cases.1 8080 fsAllPresent (by decide) (by decide)
     (fun _ _ => rfl),
   validate_config_cases.2.1 80 fsAllPresent (by decide) (fun _ _ => rfl),
   validate_config_cases.2.2.1 8080 fsAllAbsent (by decide) (by decide)
     (by decide),
   validate_config_cases.2.2.2 80 fsAllAbsent (by decide) (by decide)⟩

/-- Claim C2: `get_api_url` concatenates the base URL with the mapped path
when the key is in the endpoint map and with the key itself (no separator)
when it is absent; in particular the `"health"` and `"unknown-key"` results
are as stated, and the function is total. -/
theorem get_api_url_spec :
    (∀ k p, List.lookup k ENDPOINTS = some p →
      get_api_url k = API_BASE_URL ++ p) ∧
    (∀ k, List.lookup k ENDPOINTS = none → get_api_url k = API_BASE_URL ++ k) ∧
    get_api_url "health" = "http://localhost:8080/health" ∧
    get_api_url "unknown-key" = "http://localhost:8080unknown-key" := by
  refine ⟨?_, ?_, by decide, by decide⟩
  · intro k p h; simp [get_api_url, h]
  · intro k h; simp [get_api_url, h]

/-- Witness for C2: the mapped case at `"ocr"` and the fallback case at a key
outside the endpoint map. -/
theorem get_api_url_spec_witness :
    get_api_url "ocr" = API_BASE_URL ++ "/ocr" ∧
    get_api_url "no-such" = API_BASE_URL ++ "no-such" :=
  ⟨get_api_url_spec.1 "ocr" "/ocr" (by decide),
   get_api_url_spec.2.1 "no-such" (by decide)⟩

/-- Claim C3: every required path is relative (does not start with the path
separator); for a working directory that is non-empty and does not end in the
separator, the existence check resolves each required path against that root
as `root ++ "/" ++ path`; and membership in `check_required_files` is exactly
failure of the probe at the resolved path. -/
theorem required_files_relative_resolved :
    (∀ p ∈ REQUIRED_FILES, headIsSlash p = false) ∧
    (∀ (fs : FileSystem) (p : String), p ∈ REQUIRED_FILES →
      strIsEmpty fs.cwd = false → lastIsSlash fs.cwd = false →
      resolve fs p = fs.cwd ++ "/" ++ p) ∧
    (∀ (fs : FileSystem) (p : String),
      p ∈ check_required_files fs ↔
        p ∈ REQUIRED_FILES ∧ fs.probe (resolve fs p) ≠ FsOutcome.found) := by
  refine ⟨by decide, ?_, ?_⟩
  · intro fs p hp h1 h2
    have hrel : headIsSlash p = false := by
      simp [REQUIRED_FILES] at hp
      rcases hp with h | h | h | h <;> subst h <;> decide
    simp [resolve, hrel, posixJoin2, h1, h2]
  · intro fs p
    simp only [check_required_files, List.mem_filter, Bool.not_eq_true',
      os_path_exists_eq_false fs p]

/-- Witness for C3: the detection model path resolved against the working
directory `/app`. -/
theorem required_files_relative_resolved_witness :
    resolve fsAllAbsent "models/det.onnx" = "/app" ++ "/" ++ "models/det.onnx" :=
  required_files_relative_resolved.2.1 fsAllAbsent "models/det.onnx"
    (by decide) (by decide) (by decide)

/-- Claim C4: the embedded functions are total Lean functions, and an
existence check that cannot be performed (probe answers `denied`) makes
`os_path_exists` return `false`, so the path is reported as missing rather
than an error being propagated. -/
theorem existence_check_total (fs : FileSystem) (p : String)
    (hp : p ∈ REQUIRED_FILES)
    (hd : fs.probe (resolve fs p) = FsOutcome.denied) :
    os_path_exists fs p = false ∧ p ∈ check_required_files fs := by
  have h1 : os_path_exists fs p = false := by
    rw [os_path_exists_eq_false fs p, hd]
    decide
  exact ⟨h1, List.mem_filter.mpr ⟨hp, by simp [h1]⟩⟩

/-- Witness for C4: a filesystem denying the check of the detection model's
resolved path reports that path as missing. -/
theorem existence_check_total_witness :
    os_path_exists fsDetDenied "models/det.onnx" = false ∧
    "models/det.onnx" ∈ check_required_files fsDetDenied :=
  existence_check_total fsDetDenied "models/det.onnx" (by decide) (by decide)

/-- Claim C5: `check_required_files` depends only on the existence state of
the required files: two filesystems whose checks agree on every required file
produce identical lists, so repeated calls against an unchanged filesystem
return identical results (no caching). -/
theorem check_required_files_deterministic (fs₁ fs₂ : FileSystem)
    (h : ∀ p ∈ REQUIRED_FILES, os_path_exists fs₁ p = os_path_exists fs₂ p) :
    check_required_files fs₁ = check_required_files fs₂ := by
  unfold check_required_files
  exact List.filter_congr (fun p hp => by rw [h p hp])

/-- Witness for C5: a `denied` and an `absent` outcome for the same path give
the same existence answers, hence the same missing-files list. -/
theorem check_required_files_deterministic_witness :
    check_required_files fsDetDenied = check_required_files fsDetAbsent :=
  check_required_files_deterministic fsDetDenied fsDetAbsent (by decide)

/-- Claim C6: `get_test_images` has the same length as `TEST_IMAGES` and its
i-th element is `get_test_image_path` applied to the i-th filename, in the
declared order. -/
theorem get_test_images_spec (project_root : String) :
    (get_test_images project_root).length = TEST_IMAGES.length ∧
    ∀ i : Nat, (get_test_images project_root)[i]? =
      TEST_IMAGES[i]?.map (get_test_image_path project_root) := by
  refine ⟨by simp [get_test_images], ?_⟩
  intro i
  simp [get_test_images, List.getElem?_map]

/-- Claim C7: for every filename in the fixed test-image list and any
non-empty project root not ending in the separator, `get_test_image_path`
returns root, test-images directory and filename joined with the separator,
in that order; the function is total and performs no existence check. -/
theorem get_test_image_path_spec (project_root filename : String)
    (hf : filename ∈ TEST_IMAGES)
    (h1 : strIsEmpty project_root = false)
    (h2 : lastIsSlash project_root = false) :
    get_test_image_path project_root filename =
      project_root ++ "/" ++ TEST_IMAGES_DIR ++ "/" ++ filename := by
  have hfs : headIsSlash filename = false := by
    simp [TEST_IMAGES] at hf
    rcases hf with h | h | h <;> subst h <;> decide
  have hdir : headIsSlash TEST_IMAGES_DIR = false := by decide
  have hstep : posixJoin2 project_root TEST_IMAGES_DIR =
      project_root ++ "/" ++ TEST_IMAGES_DIR := by
    simp [posixJoin2, hdir, h1, h2]
  have hne : TEST_IMAGES_DIR.data ≠ [] := by decide
  have hempty : strIsEmpty (project_root ++ "/" ++ TEST_IMAGES_DIR) = false :=
    strIsEmpty_append _ _ hne
  have hslash : lastIsSlash (project_root ++ "/" ++ TEST_IMAGES_DIR) = false := by
    rw [lastIsSlash_append _ _ hne]; decide
  unfold get_test_image_path
  rw [hstep]
  simp [posixJoin2, hfs, hempty, hslash]

/-- Witness for C7: the first test image resolved against a concrete root. -/
theorem get_test_image_path_spec_witness :
    get_test_image_path "/srv/ocr" "1.jpg" =
      "/srv/ocr" ++ "/" ++ TEST_IMAGES_DIR ++ "/" ++ "1.jpg" :=
  get_test_image_path_spec "/srv/ocr" "1.jpg" (by decide) (by decide) (by decide)

/-- Claim C8: `get_config_info` is a pure constant: it always succeeds, two
calls are structurally equal, and the record assembles exactly the server,
models, test and ocr constant groups. -/
theorem get_config_info_deterministic :
    get_config_info = get_config_info ∧
    get_config_info.server =
      ⟨SERVER_HOST, SERVER_PORT, SERVER_DEBUG, API_BASE_URL⟩ ∧
    get_config_info.models =
      ⟨DET_MODEL_PATH, REC_MODEL_PATH, OCR_KEYS_PATH, FONT_PATH⟩ ∧
    get_config_info.test = ⟨TEST_IMAGES_DIR, TEST_IMAGES⟩ ∧
    get_config_info.ocr = ⟨DET_DB_THRESH, DET_DB_BOX_THRESH, MAX_CANDIDATES,
      UNCLIP_FACTOR, USE_DILATION, DROP_SCORE⟩ :=
  ⟨rfl, rfl, rfl, rfl, rfl⟩

/-- Claim C9: the missing-files list is a subsequence of `REQUIRED_FILES`
(order-preserving, duplicate-free, containing no other paths), and
`validate_config` returns at most two error messages. -/
theorem check_required_files_sublist (fs : FileSystem) (port : Int) :
    (check_required_files fs).Sublist REQUIRED_FILES ∧
    (∀ p ∈ check_required_files fs, p ∈ REQUIRED_FILES) ∧
    (check_required_files fs).Nodup ∧
    (validate_config port fs).length ≤ 2 := by
  have hsub : (check_required_files fs).Sublist REQUIRED_FILES :=
    List.filter_sublist _
  refine ⟨hsub, fun p hp => hsub.subset hp,
    List.Nodup.sublist hsub (by decide), ?_⟩
  unfold validate_config
  cases hpr : portRangeOk port <;>
    cases hemp : (check_required_files fs).isEmpty <;> simp [hpr, hemp]

/-- Witness for C9: with every file absent, a member of the missing list is a
member of `REQUIRED_FILES`, and the validation error list has length at most
two. -/
theorem check_required_files_sublist_witness :
    "assets/fonts/simfang.ttf" ∈ REQUIRED_FILES ∧
    (validate_config 8080 fsAllAbsent).length ≤ 2 :=
  ⟨(check_required_files_sublist fsAllAbsent 8080).2.1 "assets/fonts/simfang.ttf"
     (by decide),
   (check_required_files_sublist fsAllAbsent 8080).2.2.2⟩

/-- Claim C10: when the filename argument is itself an absolute path, the
join discards the project-root and test-images-directory components and
`get_test_image_path` returns the filename unchanged. -/
theorem get_test_image_path_absolute (project_root filename : String)
    (h : headIsSlash filename = true) :
    get_test_image_path project_root filename = filename := by
  simp [get_test_image_path, posixJoin2, h]

/-- Witness for C10: an absolute filename escapes the project root. -/
theorem get_test_image_path_absolute_witness :
    get_test_image_path "/srv/ocr" "/etc/passwd" = "/etc/passwd" :=
  get_test_image_path_absolute "/srv/ocr" "/etc/passwd" (by decide)
